import Mathlib

/-!
Shallow embedding of `src/main.py` from brancengregory/demo-chatterbox.

The script is straight-line Python (after importing torchaudio as `ta`
and `ChatterboxTTS` from chatterbox.tts):

  model = ChatterboxTTS.from_pretrained(device="cuda")
  text = "Suhhhhhhhhhhhhh"
  wav = model.generate(text)
  ta.save("test-1.wav", wav, model.sr)
  AUDIO_PROMPT_PATH="sample.wav"
  wav = model.generate(text, audio_prompt_path=AUDIO_PROMPT_PATH)
  ta.save("test-2.wav", wav, model.sr)
  AUDIO_PROMPT_PATH="dad_sample.wav"
  wav = model.generate(text, audio_prompt_path=AUDIO_PROMPT_PATH)
  ta.save("test-3.wav", wav, model.sr)

The external collaborators (the pretrained-model provider and the audio
file writer) are opaque and fallible; we model them as an `Env` of
`Except`-valued functions, a Python exception being an opaque `String`.
Running the script yields a trace of the external calls it issued, the
list of files it wrote, and the propagated error, if any: any exception
from a step aborts the remaining straight-line code, exactly as an
uncaught Python exception terminates a module body.
-/

namespace DemoChatterbox

/-- Waveform buffer: a raw sequence of numeric audio samples. -/
abbrev Wav := List Int

/-- One external call issued by the script. -/
inductive Event where
  | load (device : String)
  | generate (text : String) (audioPromptPath : Option String)
  | save (path : String) (wav : Wav) (sr : Nat)
  deriving DecidableEq

/-- The `ChatterboxTTS` model handle: its sample rate `sr` and its fallible
`generate` method taking the text and an optional `audio_prompt_path`. -/
structure ChatterboxTTS where
  sr : Nat
  generate : String → Option String → Except String Wav

/-- The two external collaborators of `main.py`:
`ChatterboxTTS.from_pretrained(device)` and `torchaudio.save`. -/
structure Env where
  from_pretrained : String → Except String ChatterboxTTS
  save : String → Wav → Nat → Except String Unit

/-- Observable outcome of one run of the script: the sequence of external
calls issued, the files written (path, waveform, sample rate), and the
uncaught propagated error if some step raised. -/
structure RunResult where
  trace : List Event
  files : List (String × Wav × Nat)
  error : Option String
  deriving DecidableEq

/-- The literal text constant of `main.py`. -/
def text : String := "Suhhhhhhhhhhhhh"

/-- The module body of `main.py`, line by line: load the model on `"cuda"`,
then three generate/save pairs; the first uncaught exception terminates the
run with the trace and files accumulated so far. -/
def main (env : Env) : RunResult :=
  match env.from_pretrained "cuda" with
  | .error e => ⟨[.load "cuda"], [], some e⟩
  | .ok model =>
    match model.generate text none with
    | .error e => ⟨[.load "cuda", .generate text none], [], some e⟩
    | .ok wav1 =>
      match env.save "test-1.wav" wav1 model.sr with
      | .error e =>
        ⟨[.load "cuda", .generate text none, .save "test-1.wav" wav1 model.sr],
         [], some e⟩
      | .ok _ =>
        match model.generate text (some "sample.wav") with
        | .error e =>
          ⟨[.load "cuda", .generate text none, .save "test-1.wav" wav1 model.sr,
            .generate text (some "sample.wav")],
           [("test-1.wav", wav1, model.sr)], some e⟩
        | .ok wav2 =>
          match env.save "test-2.wav" wav2 model.sr with
          | .error e =>
            ⟨[.load "cuda", .generate text none, .save "test-1.wav" wav1 model.sr,
              .generate text (some "sample.wav"), .save "test-2.wav" wav2 model.sr],
             [("test-1.wav", wav1, model.sr)], some e⟩
          | .ok _ =>
            match model.generate text (some "dad_sample.wav") with
            | .error e =>
              ⟨[.load "cuda", .generate text none, .save "test-1.wav" wav1 model.sr,
                .generate text (some "sample.wav"), .save "test-2.wav" wav2 model.sr,
                .generate text (some "dad_sample.wav")],
               [("test-1.wav", wav1, model.sr), ("test-2.wav", wav2, model.sr)],
               some e⟩
            | .ok wav3 =>
              match env.save "test-3.wav" wav3 model.sr with
              | .error e =>
                ⟨[.load "cuda", .generate text none, .save "test-1.wav" wav1 model.sr,
                  .generate text (some "sample.wav"), .save "test-2.wav" wav2 model.sr,
                  .generate text (some "dad_sample.wav"),
                  .save "test-3.wav" wav3 model.sr],
                 [("test-1.wav", wav1, model.sr), ("test-2.wav", wav2, model.sr)],
                 some e⟩
              | .ok _ =>
                ⟨[.load "cuda", .generate text none, .save "test-1.wav" wav1 model.sr,
                  .generate text (some "sample.wav"), .save "test-2.wav" wav2 model.sr,
                  .generate text (some "dad_sample.wav"),
                  .save "test-3.wav" wav3 model.sr],
                 [("test-1.wav", wav1, model.sr), ("test-2.wav", wav2, model.sr),
                  ("test-3.wav", wav3, model.sr)],
                 none⟩

/-- `main.py` seen as a whole process: the source never reads `sys.argv`,
`os.environ`, or any configuration file, so the run is a function of the
external collaborators alone; the command line and OS environment are
ignored parameters. -/
def runProcess (_argv : List String) (_environ : List (String × String))
    (env : Env) : RunResult :=
  main env

/-- The shape of an event: the call made and its path arguments, with the
run-dependent waveform and sample-rate values erased. -/
inductive Shape where
  | load (device : String)
  | generate (text : String) (audioPromptPath : Option String)
  | save (path : String)
  deriving DecidableEq

def Event.shape : Event → Shape
  | .load d => .load d
  | .generate t p => .generate t p
  | .save p _ _ => .save p

def shapes (t : List Event) : List Shape := t.map Event.shape

/-- The canonical full sequence of external calls of `main.py`. -/
def fullShapes : List Shape :=
  [.load "cuda", .generate text none, .save "test-1.wav",
   .generate text (some "sample.wav"), .save "test-2.wav",
   .generate text (some "dad_sample.wav"), .save "test-3.wav"]

/-- The three output file paths, in write order. -/
def outputPaths : List String := ["test-1.wav", "test-2.wav", "test-3.wav"]

def Event.isLoad : Event → Bool
  | .load _ => true
  | _ => false

/-- The synthesis requests (text, optional prompt path) in a trace. -/
def gensOf (t : List Event) : List (String × Option String) :=
  t.filterMap fun e => match e with
    | .generate s p => some (s, p)
    | _ => none

/-- The persist destinations in a trace, in order. -/
def savePathsOf (t : List Event) : List String :=
  t.filterMap fun e => match e with
    | .save p _ _ => some p
    | _ => none

/-- The sample rates passed to persist calls in a trace, in order. -/
def saveSrsOf (t : List Event) : List Nat :=
  t.filterMap fun e => match e with
    | .save _ _ s => some s
    | _ => none

/-- The file path an event mentions, if any: the audio prompt of a
`generate`, or the destination of a `save`. -/
def pathOf : Event → Option String
  | .load _ => none
  | .generate _ p => p
  | .save p _ _ => some p

/-- A POSIX path is relative iff it does not start with a slash; a relative
path is resolved against the current working directory. -/
def isRelativePath (s : String) : Bool :=
  match s.data with
  | [] => true
  | c :: _ => c != Char.ofNat 47

/-- A concrete model handle for witness runs. -/
def demoModel : ChatterboxTTS where
  sr := 22050
  generate := fun _ _ => .ok [0]

/-- A concrete environment in which every external call succeeds. -/
def demoEnv : Env where
  from_pretrained := fun _ => .ok demoModel
  save := fun _ _ _ => .ok ()

/-- A concrete environment in which model loading raises (no CUDA). -/
def noCudaEnv : Env where
  from_pretrained := fun _ => .error "CUDA not available"
  save := fun _ _ _ => .ok ()

/-- Equation lemma: the run when model loading raises. -/
theorem main_eq_loadErr (env : Env) (e : String)
    (h1 : env.from_pretrained "cuda" = .error e) :
    main env = ⟨[.load "cuda"], [], some e⟩ := by
  simp only [main, h1]

/-- Equation lemma: the run when the first synthesis raises. -/
theorem main_eq_gen1Err (env : Env) (m : ChatterboxTTS) (e : String)
    (h1 : env.from_pretrained "cuda" = .ok m)
    (h2 : m.generate text none = .error e) :
    main env = ⟨[.load "cuda", .generate text none], [], some e⟩ := by
  simp only [main, h1, h2]

/-- Equation lemma: the run when the first persist raises. -/
theorem main_eq_save1Err (env : Env) (m : ChatterboxTTS) (w1 : Wav) (e : String)
    (h1 : env.from_pretrained "cuda" = .ok m)
    (h2 : m.generate text none = .ok w1)
    (h3 : env.save "test-1.wav" w1 m.sr = .error e) :
    main env = ⟨[.load "cuda", .generate text none, .save "test-1.wav" w1 m.sr],
      [], some e⟩ := by
  simp only [main, h1, h2, h3]

/-- Equation lemma: the run when the second synthesis raises. -/
theorem main_eq_gen2Err (env : Env) (m : ChatterboxTTS) (w1 : Wav) (e : String)
    (h1 : env.from_pretrained "cuda" = .ok m)
    (h2 : m.generate text none = .ok w1)
    (h3 : env.save "test-1.wav" w1 m.sr = .ok ())
    (h4 : m.generate text (some "sample.wav") = .error e) :
    main env = ⟨[.load "cuda", .generate text none, .save "test-1.wav" w1 m.sr,
      .generate text (some "sample.wav")], [("test-1.wav", w1, m.sr)], some e⟩ := by
  simp only [main, h1, h2, h3, h4]

/-- Equation lemma: the run when the second persist raises. -/
theorem main_eq_save2Err (env : Env) (m : ChatterboxTTS) (w1 w2 : Wav) (e : String)
    (h1 : env.from_pretrained "cuda" = .ok m)
    (h2 : m.generate text none = .ok w1)
    (h3 : env.save "test-1.wav" w1 m.sr = .ok ())
    (h4 : m.generate text (some "sample.wav") = .ok w2)
    (h5 : env.save "test-2.wav" w2 m.sr = .error e) :
    main env = ⟨[.load "cuda", .generate text none, .save "test-1.wav" w1 m.sr,
      .generate text (some "sample.wav"), .save "test-2.wav" w2 m.sr],
      [("test-1.wav", w1, m.sr)], some e⟩ := by
  simp only [main, h1, h2, h3, h4, h5]

/-- Equation lemma: the run when the third synthesis raises. -/
theorem main_eq_gen3Err (env : Env) (m : ChatterboxTTS) (w1 w2 : Wav) (e : String)
    (h1 : env.from_pretrained "cuda" = .ok m)
    (h2 : m.generate text none = .ok w1)
    (h3 : env.save "test-1.wav" w1 m.sr = .ok ())
    (h4 : m.generate text (some "sample.wav") = .ok w2)
    (h5 : env.save "test-2.wav" w2 m.sr = .ok ())
    (h6 : m.generate text (some "dad_sample.wav") = .error e) :
    main env = ⟨[.load "cuda", .generate text none, .save "test-1.wav" w1 m.sr,
      .generate text (some "sample.wav"), .save "test-2.wav" w2 m.sr,
      .generate text (some "dad_sample.wav")],
      [("test-1.wav", w1, m.sr), ("test-2.wav", w2, m.sr)], some e⟩ := by
  simp only [main, h1, h2, h3, h4, h5, h6]

/-- Equation lemma: the run when the third persist raises. -/
theorem main_eq_save3Err (env : Env) (m : ChatterboxTTS) (w1 w2 w3 : Wav) (e : String)
    (h1 : env.from_pretrained "cuda" = .ok m)
    (h2 : m.generate text none = .ok w1)
    (h3 : env.save "test-1.wav" w1 m.sr = .ok ())
    (h4 : m.generate text (some "sample.wav") = .ok w2)
    (h5 : env.save "test-2.wav" w2 m.sr = .ok ())
    (h6 : m.generate text (some "dad_sample.wav") = .ok w3)
    (h7 : env.save "test-3.wav" w3 m.sr = .error e) :
    main env = ⟨[.load "cuda", .generate text none, .save "test-1.wav" w1 m.sr,
      .generate text (some "sample.wav"), .save "test-2.wav" w2 m.sr,
      .generate text (some "dad_sample.wav"), .save "test-3.wav" w3 m.sr],
      [("test-1.wav", w1, m.sr), ("test-2.wav", w2, m.sr)], some e⟩ := by
  simp only [main, h1, h2, h3, h4, h5, h6, h7]

/-- Equation lemma: the fully successful run. -/
theorem main_eq_ok (env : Env) (m : ChatterboxTTS) (w1 w2 w3 : Wav)
    (h1 : env.from_pretrained "cuda" = .ok m)
    (h2 : m.generate text none = .ok w1)
    (h3 : env.save "test-1.wav" w1 m.sr = .ok ())
    (h4 : m.generate text (some "sample.wav") = .ok w2)
    (h5 : env.save "test-2.wav" w2 m.sr = .ok ())
    (h6 : m.generate text (some "dad_sample.wav") = .ok w3)
    (h7 : env.save "test-3.wav" w3 m.sr = .ok ()) :
    main env = ⟨[.load "cuda", .generate text none, .save "test-1.wav" w1 m.sr,
      .generate text (some "sample.wav"), .save "test-2.wav" w2 m.sr,
      .generate text (some "dad_sample.wav"), .save "test-3.wav" w3 m.sr],
      [("test-1.wav", w1, m.sr), ("test-2.wav", w2, m.sr), ("test-3.wav", w3, m.sr)],
      none⟩ := by
  simp only [main, h1, h2, h3, h4, h5, h6, h7]

/-- Exhaustive case analysis of a run: either loading fails, or the model
`m` is obtained and the run stops at one of the seven later points (or
completes), with the trace, files and error fully determined. -/
theorem main_cases (env : Env) :
    (∃ e, env.from_pretrained "cuda" = .error e ∧
      main env = ⟨[.load "cuda"], [], some e⟩) ∨
    (∃ m, env.from_pretrained "cuda" = .ok m ∧
      ((∃ e, main env = ⟨[.load "cuda", .generate text none], [], some e⟩) ∨
       (∃ w1 e, main env = ⟨[.load "cuda", .generate text none,
          .save "test-1.wav" w1 m.sr], [], some e⟩) ∨
       (∃ w1 e, main env = ⟨[.load "cuda", .generate text none,
          .save "test-1.wav" w1 m.sr, .generate text (some "sample.wav")],
          [("test-1.wav", w1, m.sr)], some e⟩) ∨
       (∃ w1 w2 e, main env = ⟨[.load "cuda", .generate text none,
          .save "test-1.wav" w1 m.sr, .generate text (some "sample.wav"),
          .save "test-2.wav" w2 m.sr],
          [("test-1.wav", w1, m.sr)], some e⟩) ∨
       (∃ w1 w2 e, main env = ⟨[.load "cuda", .generate text none,
          .save "test-1.wav" w1 m.sr, .generate text (some "sample.wav"),
          .save "test-2.wav" w2 m.sr, .generate text (some "dad_sample.wav")],
          [("test-1.wav", w1, m.sr), ("test-2.wav", w2, m.sr)], some e⟩) ∨
       (∃ w1 w2 w3 e, main env = ⟨[.load "cuda", .generate text none,
          .save "test-1.wav" w1 m.sr, .generate text (some "sample.wav"),
          .save "test-2.wav" w2 m.sr, .generate text (some "dad_sample.wav"),
          .save "test-3.wav" w3 m.sr],
          [("test-1.wav", w1, m.sr), ("test-2.wav", w2, m.sr)], some e⟩) ∨
       (∃ w1 w2 w3, main env = ⟨[.load "cuda", .generate text none,
          .save "test-1.wav" w1 m.sr, .generate text (some "sample.wav"),
          .save "test-2.wav" w2 m.sr, .generate text (some "dad_sample.wav"),
          .save "test-3.wav" w3 m.sr],
          [("test-1.wav", w1, m.sr), ("test-2.wav", w2, m.sr),
           ("test-3.wav", w3, m.sr)], none⟩))) := by
  cases h1 : env.from_pretrained "cuda" with
  | error e => exact Or.inl ⟨e, rfl, main_eq_loadErr env e h1⟩
  | ok m =>
    refine Or.inr ⟨m, rfl, ?_⟩
    cases h2 : m.generate text none with
    | error e => exact Or.inl ⟨e, main_eq_gen1Err env m e h1 h2⟩
    | ok w1 =>
      cases h3 : env.save "test-1.wav" w1 m.sr with
      | error e =>
        exact Or.inr (Or.inl ⟨w1, e, main_eq_save1Err env m w1 e h1 h2 h3⟩)
      | ok u =>
        cases u
        cases h4 : m.generate text (some "sample.wav") with
        | error e =>
          exact Or.inr (Or.inr (Or.inl ⟨w1, e, main_eq_gen2Err env m w1 e h1 h2 h3 h4⟩))
        | ok w2 =>
          cases h5 : env.save "test-2.wav" w2 m.sr with
          | error e =>
            exact Or.inr (Or.inr (Or.inr (Or.inl
              ⟨w1, w2, e, main_eq_save2Err env m w1 w2 e h1 h2 h3 h4 h5⟩)))
          | ok v =>
            cases v
            cases h6 : m.generate text (some "dad_sample.wav") with
            | error e =>
              exact Or.inr (Or.inr (Or.inr (Or.inr (Or.inl
                ⟨w1, w2, e, main_eq_gen3Err env m w1 w2 e h1 h2 h3 h4 h5 h6⟩))))
            | ok w3 =>
              cases h7 : env.save "test-3.wav" w3 m.sr with
              | error e =>
                exact Or.inr (Or.inr (Or.inr (Or.inr (Or.inr (Or.inl
                  ⟨w1, w2, w3, e,
                   main_eq_save3Err env m w1 w2 w3 e h1 h2 h3 h4 h5 h6 h7⟩)))))
              | ok w =>
                cases w
                exact Or.inr (Or.inr (Or.inr (Or.inr (Or.inr (Or.inr
                  ⟨w1, w2, w3, main_eq_ok env m w1 w2 w3 h1 h2 h3 h4 h5 h6 h7⟩)))))

/-- C1: the run performs exactly the fixed sequence load, then three
synthesize/persist pairs in order: every trace is an initial segment
(`List.take`) of the canonical call sequence, a successful run issues
exactly that sequence, and whenever the second (resp. third) synthesis
request is issued, output file 1 (resp. 2) has already been written to
disk. -/
theorem claim_C1 (env : Env) :
    (∃ k, shapes (main env).trace = fullShapes.take k) ∧
    ((main env).error = none → shapes (main env).trace = fullShapes) ∧
    (Event.generate text (some "sample.wav") ∈ (main env).trace →
      "test-1.wav" ∈ ((main env).files.map fun f => f.1)) ∧
    (Event.generate text (some "dad_sample.wav") ∈ (main env).trace →
      "test-2.wav" ∈ ((main env).files.map fun f => f.1)) := by
  rcases main_cases env with ⟨e, h1, hm⟩ | ⟨m, h1, hc⟩
  · rw [hm]
    exact ⟨⟨1, rfl⟩, by simp, by simp, by simp⟩
  · rcases hc with ⟨e, hm⟩ | ⟨w1, e, hm⟩ | ⟨w1, e, hm⟩ | ⟨w1, w2, e, hm⟩ |
      ⟨w1, w2, e, hm⟩ | ⟨w1, w2, w3, e, hm⟩ | ⟨w1, w2, w3, hm⟩
    · rw [hm]; exact ⟨⟨2, rfl⟩, by simp, by simp, by simp⟩
    · rw [hm]; exact ⟨⟨3, rfl⟩, by simp, by simp, by simp⟩
    · rw [hm]; exact ⟨⟨4, rfl⟩, by simp, by simp, by simp⟩
    · rw [hm]; exact ⟨⟨5, rfl⟩, by simp, by simp, by simp⟩
    · rw [hm]; exact ⟨⟨6, rfl⟩, by simp, by simp, by simp⟩
    · rw [hm]; exact ⟨⟨7, rfl⟩, by simp, by simp, by simp⟩
    · rw [hm]; exact ⟨⟨7, rfl⟩, fun _ => rfl, by simp, by simp⟩

/-- Witness for C1 at a concrete all-succeeding environment. -/
theorem claim_C1_witness :
    shapes (main demoEnv).trace = fullShapes ∧
    "test-1.wav" ∈ ((main demoEnv).files.map fun f => f.1) ∧
    "test-2.wav" ∈ ((main demoEnv).files.map fun f => f.1) :=
  ⟨(claim_C1 demoEnv).2.1 rfl,
   (claim_C1 demoEnv).2.2.1 (by decide),
   (claim_C1 demoEnv).2.2.2 (by decide)⟩

/-- C2: any failure is terminal and unretried: no external call is ever
issued twice, the calls issued always form an initial segment of the
canonical sequence (no fallback or skipped-ahead step), and on a failing
run the files on disk are exactly the outputs the earlier completed steps
wrote, in order — strictly fewer than all three. -/
theorem claim_C2 (env : Env) :
    (main env).trace.Nodup ∧
    (∃ k ≤ 7, shapes (main env).trace = fullShapes.take k) ∧
    ((main env).error.isSome →
      ∃ j ≤ 2, ((main env).files.map fun f => f.1) = outputPaths.take j) := by
  rcases main_cases env with ⟨e, h1, hm⟩ | ⟨m, h1, hc⟩
  · rw [hm]
    exact ⟨by simp, ⟨1, by simp, rfl⟩, fun _ => ⟨0, by simp, rfl⟩⟩
  · rcases hc with ⟨e, hm⟩ | ⟨w1, e, hm⟩ | ⟨w1, e, hm⟩ | ⟨w1, w2, e, hm⟩ |
      ⟨w1, w2, e, hm⟩ | ⟨w1, w2, w3, e, hm⟩ | ⟨w1, w2, w3, hm⟩
    · rw [hm]; exact ⟨by simp, ⟨2, by simp, rfl⟩, fun _ => ⟨0, by simp, rfl⟩⟩
    · rw [hm]; exact ⟨by simp, ⟨3, by simp, rfl⟩, fun _ => ⟨0, by simp, rfl⟩⟩
    · rw [hm]; exact ⟨by simp, ⟨4, by simp, rfl⟩, fun _ => ⟨1, by simp, rfl⟩⟩
    · rw [hm]; exact ⟨by simp, ⟨5, by simp, rfl⟩, fun _ => ⟨1, by simp, rfl⟩⟩
    · rw [hm]; exact ⟨by simp, ⟨6, by simp, rfl⟩, fun _ => ⟨2, by simp, rfl⟩⟩
    · rw [hm]; exact ⟨by simp, ⟨7, by simp, rfl⟩, fun _ => ⟨2, by simp, rfl⟩⟩
    · rw [hm]; exact ⟨by simp, ⟨7, by simp, rfl⟩, fun h => by simp at h⟩

/-- Witness for C2 at a concrete environment whose model load raises. -/
theorem claim_C2_witness :
    (main noCudaEnv).error.isSome ∧
    ∃ j ≤ 2, ((main noCudaEnv).files.map fun f => f.1) = outputPaths.take j :=
  ⟨by decide, (claim_C2 noCudaEnv).2.2 (by decide)⟩

/-- C3: if model loading fails, no output file is created at all: the run
wrote no files and the only external call it issued is the load itself, so
loading strictly precedes every synthesis and every persist. -/
theorem claim_C3 (env : Env) (e : String)
    (h : env.from_pretrained "cuda" = .error e) :
    (main env).files = [] ∧ (main env).trace = [Event.load "cuda"] := by
  rw [main_eq_loadErr env e h]
  exact ⟨rfl, rfl⟩

/-- Witness for C3 at a concrete environment whose model load raises. -/
theorem claim_C3_witness :
    (main noCudaEnv).files = [] ∧ (main noCudaEnv).trace = [Event.load "cuda"] :=
  claim_C3 noCudaEnv "CUDA not available" rfl

/-- C4: a completed run issues exactly three synthesis requests — one with
no prompt, one with prompt `sample.wav`, one with prompt `dad_sample.wav`,
all with the same text — and persists to the three pairwise-distinct
output paths. -/
theorem claim_C4 (env : Env) (h : (main env).error = none) :
    gensOf (main env).trace =
      [(text, none), (text, some "sample.wav"), (text, some "dad_sample.wav")] ∧
    savePathsOf (main env).trace = outputPaths ∧
    outputPaths.Nodup := by
  rcases main_cases env with ⟨e, h1, hm⟩ | ⟨m, h1, hc⟩
  · rw [hm] at h; cases h
  · rcases hc with ⟨e, hm⟩ | ⟨w1, e, hm⟩ | ⟨w1, e, hm⟩ | ⟨w1, w2, e, hm⟩ |
      ⟨w1, w2, e, hm⟩ | ⟨w1, w2, w3, e, hm⟩ | ⟨w1, w2, w3, hm⟩
    · rw [hm] at h; cases h
    · rw [hm] at h; cases h
    · rw [hm] at h; cases h
    · rw [hm] at h; cases h
    · rw [hm] at h; cases h
    · rw [hm] at h; cases h
    · rw [hm]; exact ⟨rfl, rfl, by decide⟩

/-- Witness for C4 at a concrete all-succeeding environment. -/
theorem claim_C4_witness :
    gensOf (main demoEnv).trace =
      [(text, none), (text, some "sample.wav"), (text, some "dad_sample.wav")] ∧
    savePathsOf (main demoEnv).trace = outputPaths ∧
    outputPaths.Nodup :=
  claim_C4 demoEnv rfl

/-- C5: every persist call the run issues passes the loaded model handle's
own sample rate: when loading returned the handle `m`, every sample rate
passed to `save` in the trace equals `m.sr`. -/
theorem claim_C5 (env : Env) (m : ChatterboxTTS)
    (h : env.from_pretrained "cuda" = .ok m) :
    ∀ s ∈ saveSrsOf (main env).trace, s = m.sr := by
  rcases main_cases env with ⟨e, h1, hm⟩ | ⟨m2, h1, hc⟩
  · rw [h] at h1; cases h1
  · rw [h] at h1
    cases Except.ok.inj h1
    rcases hc with ⟨e, hm⟩ | ⟨w1, e, hm⟩ | ⟨w1, e, hm⟩ | ⟨w1, w2, e, hm⟩ |
      ⟨w1, w2, e, hm⟩ | ⟨w1, w2, w3, e, hm⟩ | ⟨w1, w2, w3, hm⟩
    · rw [hm]; simp [saveSrsOf]
    · rw [hm]; simp [saveSrsOf]
    · rw [hm]; simp [saveSrsOf]
    · rw [hm]; simp [saveSrsOf]
    · rw [hm]; simp [saveSrsOf]
    · rw [hm]; simp [saveSrsOf]
    · rw [hm]; simp [saveSrsOf]

/-- Witness for C5 at a concrete all-succeeding environment. -/
theorem claim_C5_witness :
    (22050 ∈ saveSrsOf (main demoEnv).trace) ∧ 22050 = demoModel.sr :=
  ⟨by decide, claim_C5 demoEnv demoModel rfl 22050 (by decide)⟩

/-- C6: every synthesis request the run issues carries the fixed literal
text, which is non-empty, so the empty-text error branch of the synthesize
contract is unreachable in this script. -/
theorem claim_C6 (env : Env) :
    ∀ t p, (t, p) ∈ gensOf (main env).trace →
      t = "Suhhhhhhhhhhhhh" ∧ t ≠ "" := by
  rcases main_cases env with ⟨e, h1, hm⟩ | ⟨m, h1, hc⟩
  · rw [hm]; intro t p hp; simp [gensOf] at hp
  · rcases hc with ⟨e, hm⟩ | ⟨w1, e, hm⟩ | ⟨w1, e, hm⟩ | ⟨w1, w2, e, hm⟩ |
      ⟨w1, w2, e, hm⟩ | ⟨w1, w2, w3, e, hm⟩ | ⟨w1, w2, w3, hm⟩ <;>
    · rw [hm]
      intro t p hp
      simp [gensOf, text] at hp
      have ht : t = "Suhhhhhhhhhhhhh" := by tauto
      exact ⟨ht, by rw [ht]; decide⟩

/-- Witness for C6 at a concrete all-succeeding environment. -/
theorem claim_C6_witness :
    ((text, (none : Option String)) ∈ gensOf (main demoEnv).trace) ∧
    text = "Suhhhhhhhhhhhhh" ∧ text ≠ "" :=
  ⟨by decide, claim_C6 demoEnv text none (by decide)⟩

/-- C7: the run depends only on the external collaborators, never on the
command line or the OS environment: the process function ignores `argv` and
`environ`, so two runs with different command lines and environments issue
the identical sequence of calls and produce the identical outcome. -/
theorem claim_C7 (argv1 argv2 : List String)
    (environ1 environ2 : List (String × String)) (env : Env) :
    runProcess argv1 environ1 env = runProcess argv2 environ2 env := rfl

/-- Witness for C7 at concrete distinct command lines and environments. -/
theorem claim_C7_witness :
    runProcess ["--fast"] [("HOME", "/root")] demoEnv =
      runProcess [] [] demoEnv :=
  claim_C7 ["--fast"] [] [("HOME", "/root")] [] demoEnv

/-- C8: the model handle is created by exactly one load call, which is the
very first external call of every run; every later step only reads the
handle (no second load, no rebinding). -/
theorem claim_C8 (env : Env) :
    (main env).trace.filter Event.isLoad = [Event.load "cuda"] ∧
    (main env).trace.head? = some (Event.load "cuda") := by
  rcases main_cases env with ⟨e, h1, hm⟩ | ⟨m, h1, hc⟩
  · rw [hm]; exact ⟨rfl, rfl⟩
  · rcases hc with ⟨e, hm⟩ | ⟨w1, e, hm⟩ | ⟨w1, e, hm⟩ | ⟨w1, w2, e, hm⟩ |
      ⟨w1, w2, e, hm⟩ | ⟨w1, w2, w3, e, hm⟩ | ⟨w1, w2, w3, hm⟩ <;>
    · rw [hm]; exact ⟨rfl, rfl⟩

/-- Witness for C8 at a concrete all-succeeding environment. -/
theorem claim_C8_witness :
    (main demoEnv).trace.filter Event.isLoad = [Event.load "cuda"] ∧
    (main demoEnv).trace.head? = some (Event.load "cuda") :=
  claim_C8 demoEnv

/-- C9: the only device identifier ever requested is the literal `"cuda"`,
and when loading on that device fails (e.g. no such accelerator on the
host) the run issues no synthesis request and writes no file. -/
theorem claim_C9 (env : Env) :
    (∀ d, Event.load d ∈ (main env).trace → d = "cuda") ∧
    (∀ e, env.from_pretrained "cuda" = .error e →
      gensOf (main env).trace = [] ∧ savePathsOf (main env).trace = [] ∧
      (main env).files = []) := by
  constructor
  · rcases main_cases env with ⟨e, h1, hm⟩ | ⟨m, h1, hc⟩
    · rw [hm]; intro d hd; simp at hd; exact hd
    · rcases hc with ⟨e, hm⟩ | ⟨w1, e, hm⟩ | ⟨w1, e, hm⟩ | ⟨w1, w2, e, hm⟩ |
        ⟨w1, w2, e, hm⟩ | ⟨w1, w2, w3, e, hm⟩ | ⟨w1, w2, w3, hm⟩ <;>
      · rw [hm]; intro d hd; simp at hd; exact hd
  · intro e he
    rw [main_eq_loadErr env e he]
    exact ⟨rfl, rfl, rfl⟩

/-- Witness for C9 at a concrete environment whose model load raises. -/
theorem claim_C9_witness :
    (Event.load "cuda" ∈ (main noCudaEnv).trace → "cuda" = "cuda") ∧
    (gensOf (main noCudaEnv).trace = [] ∧ savePathsOf (main noCudaEnv).trace = [] ∧
      (main noCudaEnv).files = []) :=
  ⟨(claim_C9 noCudaEnv).1 "cuda", (claim_C9 noCudaEnv).2 "CUDA not available" rfl⟩

/-- C10: every file path any call of the run mentions — as an audio prompt
or as a persist destination — is one of the five literal constants of the
script, and each of them is a relative path (no leading slash), hence
resolved against the current working directory of the process. -/
theorem claim_C10 (env : Env) :
    ∀ p ∈ (main env).trace.filterMap pathOf,
      p ∈ ["sample.wav", "dad_sample.wav", "test-1.wav", "test-2.wav",
           "test-3.wav"] ∧
      isRelativePath p = true := by
  rcases main_cases env with ⟨e, h1, hm⟩ | ⟨m, h1, hc⟩
  · rw [hm]; intro p hp; simp [pathOf] at hp
  · rcases hc with ⟨e, hm⟩ | ⟨w1, e, hm⟩ | ⟨w1, e, hm⟩ | ⟨w1, w2, e, hm⟩ |
      ⟨w1, w2, e, hm⟩ | ⟨w1, w2, w3, e, hm⟩ | ⟨w1, w2, w3, hm⟩
    · rw [hm]; intro p hp; simp [pathOf] at hp
    · rw [hm]; intro p hp; simp [pathOf] at hp
      subst hp; exact ⟨by decide, by decide⟩
    · rw [hm]; intro p hp; simp [pathOf] at hp
      rcases hp with rfl | rfl <;> exact ⟨by decide, by decide⟩
    · rw [hm]; intro p hp; simp [pathOf] at hp
      rcases hp with rfl | rfl | rfl <;> exact ⟨by decide, by decide⟩
    · rw [hm]; intro p hp; simp [pathOf] at hp
      rcases hp with rfl | rfl | rfl | rfl <;> exact ⟨by decide, by decide⟩
    · rw [hm]; intro p hp; simp [pathOf] at hp
      rcases hp with rfl | rfl | rfl | rfl | rfl <;> exact ⟨by decide, by decide⟩
    · rw [hm]; intro p hp; simp [pathOf] at hp
      rcases hp with rfl | rfl | rfl | rfl | rfl <;> exact ⟨by decide, by decide⟩

/-- Witness for C10 at a concrete all-succeeding environment. -/
theorem claim_C10_witness :
    ("test-1.wav" ∈ (main demoEnv).trace.filterMap pathOf) ∧
    ("test-1.wav" ∈ ["sample.wav", "dad_sample.wav", "test-1.wav", "test-2.wav",
       "test-3.wav"] ∧ isRelativePath "test-1.wav" = true) :=
  ⟨by decide, claim_C10 demoEnv "test-1.wav" (by decide)⟩

end DemoChatterbox
